import Mathlib

/-!
Shallow embedding of the per-guild playback coordinator of a Discord music
bot (src/bot.py, src/helper.py, src/control.py).

Python floats that carry monotonic-clock times, seek offsets and volumes are
modelled as rationals (`ℚ`); the per-guild mutable dictionaries of bot.py are
modelled as one `GuildState` record per guild (all state in the source is
keyed by `guild_id` and guild-independent). Effects (message sends, sleeps,
stream starts, disconnects) are recorded in an explicit `Action` trace.
Fallible external calls (yt-dlp resolution, message edits/sends) are passed
in as explicit outcomes.
-/

namespace MusicBot

/-- A resolved track tuple `(url, title, duration)` as stored in
`SONG_QUEUES` (bot.py line 64); duration `0` encodes "unknown"
(`duration or 0`). -/
structure Track where
  url : String
  title : String
  duration : Nat
  deriving Repr, DecidableEq

/-- The `CURRENT_TRACK[guild_id]` record (bot.py lines 66 and 136-142). -/
structure CurrentTrack where
  url : String
  title : String
  duration : Nat
  started_at : ℚ
  seek_offset : ℚ
  deriving Repr, DecidableEq

/-- Voice-client playback status as exposed by `vc.is_playing()` /
`vc.is_paused()`. -/
inductive VCState
  | playing
  | paused
  | stopped
  deriving Repr, DecidableEq

/-- All per-guild mutable state of bot.py (lines 63-73), gathered into one
record: the queue, the current `PCMVolumeTransformer` (only its volume is
observable, so it is modelled by `Option ℚ`), the current-track record,
the pending-restart elapsed value, the three effect levels, and the voice
connection status. -/
structure GuildState where
  queue : List Track
  playerVol : Option ℚ
  current : Option CurrentTrack
  pending : Option ℚ
  bass : Nat
  treble : Nat
  vocal : Nat
  connected : Bool
  vcState : VCState
  deriving Repr, DecidableEq

/-- Observable effects emitted by the coordinator. -/
inductive Action
  | uiUpdate
  | sleep (seconds : ℚ)
  | disconnect
  | playAttempt
  | streamStarted (audio_url : String)
  deriving Repr, DecidableEq

/-- Result of running one coordinator operation: either it completed, or an
exception escaped to the operation's caller. Both carry the guild state as
left behind and the actions performed before completion/escape. -/
inductive RunResult
  | ok (s : GuildState) (actions : List Action)
  | raised (s : GuildState) (actions : List Action)
  deriving Repr, DecidableEq

/-- The guild state carried by a `RunResult`. -/
def RunResult.state : RunResult → GuildState
  | .ok s _ => s
  | .raised s _ => s

/-- The action trace carried by a `RunResult`. -/
def RunResult.actions : RunResult → List Action
  | .ok _ a => a
  | .raised _ a => a

/-- Python `dict.get(key, 0)` over an association list, as used for the
per-guild effect-level dictionaries. -/
def dictGet (d : List (Nat × Nat)) (k : Nat) : Nat :=
  match d.find? (fun p => p.1 == k) with
  | some p => p.2
  | none => 0

/-- The list `filters` built inside `helper.build_filter_chain`
(helper.py lines 154-165): one term per effect with level `> 0`, each level
clamped by `min(level, 5)`. -/
def filterTerms (bass treb vocal : Nat) : List String :=
  (if bass > 0 then ["bass=g=" ++ toString (min bass 5)] else [])
    ++ (if treb > 0 then ["treble=g=" ++ toString (min treb 5)] else [])
    ++ (if vocal > 0 then
          ["equalizer=f=3000:width_type=h:width=2000:g=" ++ toString (min vocal 5)]
        else [])

/-- `helper.build_filter_chain` (helper.py lines 144-170): looks up the three
effect levels for the guild, builds the filter terms, and returns `"-vn"`
when there are none, else the `-af` argument string. -/
def build_filter_chain (guild_id : Nat)
    (bass_levels treble_levels vocal_levels : List (Nat × Nat)) : String :=
  let filters := filterTerms (dictGet bass_levels guild_id)
    (dictGet treble_levels guild_id) (dictGet vocal_levels guild_id)
  if filters.isEmpty then "-vn"
  else "-vn -af \"" ++ String.intercalate "," filters ++ ",volume=1\""

/-- The elapsed-time formula stated by the spec:
`elapsed = (now_monotonic - started_at_monotonic) + seek_offset_seconds`. -/
def rawElapsed (now : ℚ) (tr : CurrentTrack) : ℚ :=
  (now - tr.started_at) + tr.seek_offset

/-- Elapsed time as computed by `helper.build_now_playing_embed`
(helper.py lines 239-243): raw formula, then `max(0, min(elapsed, duration))`. -/
def embed_elapsed (now : ℚ) (tr : CurrentTrack) : ℚ :=
  let elapsed := (now - tr.started_at) + tr.seek_offset
  max 0 (min elapsed (tr.duration : ℚ))

/-- Elapsed time as computed by the effect commands
(`bassboost_cmd`, bot.py lines 433-438, and identically in
`trebleboost_cmd` / `vocalboost_cmd`): `started_at or now` (Python `or`
treats `0.0` as falsy), raw formula, clamped to
`[max(0, ...), max(0, duration - 1)]` only when `duration` is truthy. -/
def command_elapsed (now : ℚ) (tr : CurrentTrack) : ℚ :=
  let started_at := if tr.started_at = 0 then now else tr.started_at
  let elapsed := (now - started_at) + tr.seek_offset
  if tr.duration ≠ 0 then min (max 0 elapsed) (max 0 ((tr.duration : ℚ) - 1))
  else elapsed

/-- Elapsed time as computed by `debug_cmd` (bot.py line 602): raw formula
with the `started_at or now` default, never clamped. -/
def debug_elapsed (now : ℚ) (tr : CurrentTrack) : ℚ :=
  (now - (if tr.started_at = 0 then now else tr.started_at)) + tr.seek_offset

/-- `play_next` (bot.py lines 89-183), per guild. Empty queue: clear
`CURRENT_TRACK` and `CURRENT_PLAYERS`, update the UI, sleep 1 second, then
disconnect the voice client. Otherwise: pop the queue head, resolve a fresh
audio endpoint (`_get_audio_url`; an exception there escapes with the queue
already popped), create the new player with the previous player's volume
(default `1.0`), record the new `CURRENT_TRACK` with
`started_at = time.monotonic()` and `seek_offset = 0.0`, refresh the UI and
start the stream; `voice_client.play` raises when the client is not
connected. -/
def play_next (now : ℚ) (resolve : String → Except Unit String)
    (s : GuildState) : RunResult :=
  match s.queue with
  | [] =>
    .ok { s with current := none, playerVol := none,
                 connected := false, vcState := .stopped }
      [.uiUpdate, .sleep 1, .disconnect]
  | t :: rest =>
    let s1 : GuildState := { s with queue := rest }
    match resolve t.url with
    | .error _ => .raised s1 []
    | .ok audio =>
      let volume := s1.playerVol.getD 1
      let s2 : GuildState :=
        { s1 with playerVol := some volume,
                  current := some ⟨t.url, t.title, t.duration, now, 0⟩ }
      if s2.connected then
        .ok { s2 with vcState := .playing }
          [.uiUpdate, .playAttempt, .streamStarted audio]
      else
        .raised s2 [.uiUpdate, .playAttempt]

/-- `stop_cmd` (bot.py lines 356-372) and the Stop button
(control.py lines 76-91): stop and disconnect the voice client, clear the
queue, pop `CURRENT_TRACK` and `CURRENT_PLAYERS`. `PENDING_RESTART` is not
touched by stop. -/
def stop_cmd (s : GuildState) : GuildState :=
  { s with queue := [], current := none, playerVol := none,
           connected := false, vcState := .stopped }

/-- Body of `restart_same_track` (bot.py lines 185-243) up to the point where
an exception would escape into the `except` handler at lines 245-248.
`mid` is the state transformation interleaved during the
`await _get_audio_url` suspension point (`id` when nothing else runs).
Order is faithful to the source: `PENDING_RESTART.pop` first, then the
`CURRENT_TRACK.get` snapshot, then the suspension; after it the code
proceeds without re-checking guild state: it reads the (possibly popped)
player's volume, installs a new player, writes `seek_offset`/`started_at`
into the snapshot dict (visible in `CURRENT_TRACK` only if the snapshot is
still installed), refreshes the UI and calls `voice_client.play`, which
raises when the client is no longer connected. -/
def restart_body (now : ℚ) (resolve : String → Except Unit String)
    (mid : GuildState → GuildState) (s : GuildState) : RunResult :=
  match s.pending with
  | none => .ok s []
  | some pelapsed =>
    let s1 : GuildState := { s with pending := none }
    match s1.current with
    | none => .ok s1 []
    | some tr =>
      match resolve tr.url with
      | .error _ => .raised (mid s1) []
      | .ok audio =>
        let s2 := mid s1
        let elapsed := max 0 pelapsed
        let vol := s2.playerVol.getD 1
        let s3 : GuildState := { s2 with playerVol := some vol }
        let upd : CurrentTrack → CurrentTrack :=
          fun c => { c with seek_offset := elapsed, started_at := now }
        let s4 : GuildState := { s3 with current := s3.current.map upd }
        if s4.connected then
          .ok { s4 with vcState := .playing }
            [.uiUpdate, .playAttempt, .streamStarted audio]
        else
          .raised s4 [.uiUpdate, .playAttempt]

/-- Origin of a stream-end event: a stream started by `play_next`, or one
started by `restart_same_track`. -/
inductive StreamOrigin
  | normal
  | restarted
  deriving Repr, DecidableEq

/-- The stream-end (`after_play`) dispatch. The closure installed by
`play_next` (bot.py lines 159-183) first checks
`PENDING_RESTART.get(guild_id)` and routes to `restart_same_track` when it
is set, otherwise to `play_next`. The closure installed by
`restart_same_track` (bot.py lines 231-243) always routes to `play_next`,
without consulting `PENDING_RESTART`. -/
def stream_end (origin : StreamOrigin) (now : ℚ)
    (resolve : String → Except Unit String) (s : GuildState) : RunResult :=
  match origin with
  | .normal =>
    if s.pending.isSome then restart_body now resolve id s
    else play_next now resolve s
  | .restarted => play_next now resolve s

/-- Which effect level a boost command sets. -/
inductive Effect
  | bass
  | treble
  | vocal
  deriving Repr, DecidableEq

/-- Store a level into the guild's effect-level dictionary. -/
def setLevel (e : Effect) (level : Nat) (s : GuildState) : GuildState :=
  match e with
  | .bass => { s with bass := level }
  | .treble => { s with treble := level }
  | .vocal => { s with vocal := level }

/-- Core of `bassboost_cmd` (bot.py lines 416-462) and the identical
`trebleboost_cmd` / `vocalboost_cmd`: validate the level, record it, and if
a voice client is playing or paused and a current track exists, compute the
clamped elapsed time, store it in `PENDING_RESTART`, and call `vc.stop()`
(which will fire the stream-end callback). Otherwise only the level is
recorded. -/
def effect_change (e : Effect) (now : ℚ) (level : Nat)
    (s : GuildState) : GuildState × List Action :=
  if level ≤ 5 then
    let s1 := setLevel e level s
    match s1.current with
    | some tr =>
      if s1.connected ∧ (s1.vcState = .playing ∨ s1.vcState = .paused) then
        ({ s1 with pending := some (command_elapsed now tr),
                   vcState := .stopped }, [.uiUpdate])
      else (s1, [.uiUpdate])
    | none => (s1, [.uiUpdate])
  else (s, [])

/-- `volume_cmd` (bot.py lines 388-399): reject levels outside `0..100`,
reject when no player exists, else set `player.volume = level / 100.0`. -/
def volume_cmd (level : Nat) (s : GuildState) : GuildState :=
  if level ≤ 100 then
    match s.playerVol with
    | none => s
    | some _ => { s with playerVol := some ((level : ℚ) / 100) }
  else s

/-- Per-guild UI bookkeeping: `NOW_PLAYING_CHANNELS[guild_id]` and
`NOW_PLAYING_MESSAGES[guild_id]` (bot.py lines 72-73). -/
structure UIState where
  channel : Option Nat
  liveMsg : Option Nat
  deriving Repr, DecidableEq

/-- The Discord side seen by `send_or_edit_now_playing`: which channel ids
`bot.get_channel` resolves, which message ids still exist (an edit raises
`NotFound`/`HTTPException` exactly when the target is gone), the id the next
`channel.send` would produce, and whether that send succeeds. -/
structure World where
  channels : List Nat
  messages : List Nat
  nextId : Nat
  createOk : Bool
  deriving Repr, DecidableEq

/-- Message operations performed by one sync. -/
inductive UIAction
  | edit (msgId : Nat)
  | create (msgId : Nat)
  deriving Repr, DecidableEq

/-- Result of one `send_or_edit_now_playing` call. -/
structure SyncResult where
  ui : UIState
  world : World
  actions : List UIAction
  deriving Repr, DecidableEq

/-- `helper.send_or_edit_now_playing` (helper.py lines 298-348): return
silently when no channel id is recorded (Python truthiness: id `0` also
counts as unset) or when `bot.get_channel` cannot resolve it; otherwise edit
the recorded live message if the edit succeeds, else forget the stale
reference and create a replacement; creation failures are swallowed. -/
def send_or_edit_now_playing (u : UIState) (w : World) : SyncResult :=
  match u.channel with
  | none => ⟨u, w, []⟩
  | some c =>
    if c = 0 then ⟨u, w, []⟩
    else if c ∈ w.channels then
      match u.liveMsg with
      | some m =>
        if m ∈ w.messages then ⟨u, w, [.edit m]⟩
        else if w.createOk then
          ⟨⟨u.channel, some w.nextId⟩,
           ⟨w.channels, w.nextId :: w.messages, w.nextId + 1, w.createOk⟩,
           [.create w.nextId]⟩
        else ⟨⟨u.channel, none⟩, w, []⟩
      | none =>
        if w.createOk then
          ⟨⟨u.channel, some w.nextId⟩,
           ⟨w.channels, w.nextId :: w.messages, w.nextId + 1, w.createOk⟩,
           [.create w.nextId]⟩
        else ⟨u, w, []⟩
    else ⟨u, w, []⟩

/-- Number of message creations in a sync's action list. -/
def createCount (as : List UIAction) : Nat :=
  (as.filter (fun a => match a with | .create _ => true | .edit _ => false)).length

/-- A channel id is recorded and resolvable. -/
def channelResolvable (u : UIState) (w : World) : Prop :=
  ∃ c, u.channel = some c ∧ c ≠ 0 ∧ c ∈ w.channels

/-- A live message is recorded and still exists. -/
def validLive (u : UIState) (w : World) : Prop :=
  ∃ m, u.liveMsg = some m ∧ m ∈ w.messages

/-- One raw entry of a yt-dlp result (`info["entries"]` elements), with the
fields `search_youtube` reads; `none` url/title model missing keys and the
empty string models a falsy value. -/
structure RawEntry where
  url : Option String
  title : Option String
  duration : Nat
  deriving Repr, DecidableEq

/-- The entry filter of `helper.search_youtube` (helper.py lines 131-135):
keep entries that are truthy and have truthy `url` and `title`. -/
def parseEntries (entries : List (Option RawEntry)) : List Track :=
  entries.foldr
    (fun e acc =>
      match e with
      | some e =>
        match e.url, e.title with
        | some u, some t =>
          if u ≠ "" ∧ t ≠ "" then ⟨u, t, e.duration⟩ :: acc else acc
        | _, _ => acc
      | none => acc)
    []

/-- `helper.search_youtube`'s retry skeleton (helper.py lines 121-137): run
the extraction once; if it raises, sleep 1 second and run it exactly once
more; a second failure propagates to the caller. Returns the result together
with the list of backoff sleeps performed. -/
def search_youtube (attempt1 attempt2 : Except Unit (List (Option RawEntry))) :
    Except Unit (List Track) × List ℚ :=
  match attempt1 with
  | .ok info => (.ok (parseEntries info), [])
  | .error _ =>
    match attempt2 with
    | .ok info => (.ok (parseEntries info), [1])
    | .error e => (.error e, [1])

/-- User-visible outcome of `play_cmd`'s handling of the search result. -/
inductive PlayCmdOutcome
  | errorReported
  | noResults
  | enqueued (tracks : List Track)
  deriving Repr, DecidableEq

/-- `play_cmd`'s reaction to the resolution result (bot.py lines 264-311):
any exception is caught and reported to the user as an error message and the
command returns normally; an empty result list is reported as "no results";
otherwise the tracks are appended to the guild queue. -/
def play_cmd_react (r : Except Unit (List Track)) (s : GuildState) :
    PlayCmdOutcome × GuildState :=
  match r with
  | .error _ => (.errorReported, s)
  | .ok [] => (.noResults, s)
  | .ok ts => (.enqueued ts, { s with queue := s.queue ++ ts })

/-- Tasks scheduled onto the bot's event loop in the stream-end paths. -/
inductive LTask
  | playNextTask
  deriving Repr, DecidableEq

/-- The event loop as seen by `asyncio.run_coroutine_threadsafe(...).result()`:
`blockedOn` is the task whose `concurrent.futures` result the loop's own
thread is synchronously waiting for (`none` when the loop thread is free),
`pendingTasks` are scheduled but not yet run, `completed` have run. -/
structure LoopState where
  blockedOn : Option LTask
  pendingTasks : List LTask
  completed : List LTask
  deriving Repr, DecidableEq

/-- Event-loop progress: the loop can run the next pending task only while
its thread is free, and a synchronous wait on a task's result returns only
after that task has completed. -/
inductive LoopStep : LoopState → LoopState → Prop
  | runTask (t : LTask) (ts c : List LTask) :
      LoopStep ⟨none, t :: ts, c⟩ ⟨none, ts, t :: c⟩
  | unblock (t : LTask) (p c : List LTask) (h : t ∈ c) :
      LoopStep ⟨some t, p, c⟩ ⟨none, p, c⟩

/-- The loop configuration produced by the `except` handler of
`restart_same_track` (bot.py lines 245-248): the handler itself runs on the
event loop (restart was scheduled onto `bot.loop`), schedules `play_next`
onto that same loop via `run_coroutine_threadsafe`, and then blocks the loop
thread in `fut.result()`. -/
def restartFallbackLoop : LoopState :=
  ⟨some .playNextTask, [.playNextTask], []⟩

/-- The loop configuration produced by `after_play` (bot.py lines 174-181):
`after_play` runs on the voice-player thread, so the loop thread is free
when `play_next` is scheduled. -/
def afterPlayLoop : LoopState :=
  ⟨none, [.playNextTask], []⟩

theorem dictGet_single (k : Nat) (x : Nat) : dictGet [(k, x)] k = x := by
  simp [dictGet]

theorem filterTerms_clamp (b t v : Nat) :
    filterTerms (min b 5) (min t 5) (min v 5) = filterTerms b t v := by
  have hpos : ∀ n : Nat, (0 < min n 5) ↔ 0 < n := by
    intro n; rw [lt_min_iff]; simp
  have h5 : ∀ n : Nat, min (min n 5) 5 = min n 5 := by
    intro n; rw [Nat.min_assoc]; simp
  simp only [filterTerms, gt_iff_lt, hpos, h5]

theorem filterTerms_isEmpty (b t v : Nat) :
    (filterTerms b t v).isEmpty = true ↔ b = 0 ∧ t = 0 ∧ v = 0 := by
  by_cases hb : 0 < b <;> by_cases ht : 0 < t <;> by_cases hv : 0 < v <;>
    simp [filterTerms, hb, ht, hv, List.isEmpty_iff] <;> omega

theorem chain_string_ne (x : String) :
    "-vn -af \"" ++ x ++ ",volume=1\"" ≠ "-vn" := by
  intro h
  have hd := congrArg String.data h
  have h1 : ("-vn -af \"" ++ x ++ ",volume=1\"").data
      = "-vn -af \"".data ++ x.data ++ ",volume=1\"".data := rfl
  rw [h1] at hd
  have hlen := congrArg List.length hd
  have l1 : "-vn -af \"".data.length = 9 := rfl
  have l2 : ",volume=1\"".data.length = 10 := rfl
  have l3 : "-vn".data.length = 3 := rfl
  rw [List.length_append, List.length_append, l1, l2, l3] at hlen
  omega

/-- C3: `build_filter_chain` is a pure deterministic function of the three
looked-up per-guild effect levels (same levels give the same string, for any
guild id and backing dictionaries); levels are clamped to at most 5; an
all-zero mapping, and only an all-zero mapping, yields the no-filter
sentinel `"-vn"`; and the number of filter terms equals the number of
effects with level greater than 0, i.e. each positive effect contributes
exactly one term and a zero effect contributes none. -/
theorem build_filter_chain_correct (g : Nat)
    (bass_levels treble_levels vocal_levels : List (Nat × Nat)) :
    build_filter_chain g bass_levels treble_levels vocal_levels =
        build_filter_chain 0 [(0, dictGet bass_levels g)]
          [(0, dictGet treble_levels g)] [(0, dictGet vocal_levels g)]
    ∧ (build_filter_chain g bass_levels treble_levels vocal_levels = "-vn" ↔
        dictGet bass_levels g = 0 ∧ dictGet treble_levels g = 0 ∧
          dictGet vocal_levels g = 0)
    ∧ build_filter_chain g bass_levels treble_levels vocal_levels =
        build_filter_chain 0 [(0, min (dictGet bass_levels g) 5)]
          [(0, min (dictGet treble_levels g) 5)]
          [(0, min (dictGet vocal_levels g) 5)]
    ∧ (filterTerms (dictGet bass_levels g) (dictGet treble_levels g)
          (dictGet vocal_levels g)).length =
        ((if 0 < dictGet bass_levels g then 1 else 0) +
         (if 0 < dictGet treble_levels g then 1 else 0) +
         (if 0 < dictGet vocal_levels g then 1 else 0)) := by
  set B := dictGet bass_levels g with hB
  set T := dictGet treble_levels g with hT
  set V := dictGet vocal_levels g with hV
  refine ⟨?_, ?_, ?_, ?_⟩
  · simp [build_filter_chain, dictGet_single, hB, hT, hV]
  · constructor
    · intro h
      by_cases he : (filterTerms B T V).isEmpty
      · exact (filterTerms_isEmpty B T V).mp he
      · exfalso
        rw [build_filter_chain] at h
        simp only [← hB, ← hT, ← hV, he, if_neg, Bool.false_eq_true,
          not_false_eq_true, if_false] at h
        exact chain_string_ne _ h
    · rintro ⟨h1, h2, h3⟩
      simp [build_filter_chain, ← hB, ← hT, ← hV, h1, h2, h3, filterTerms]
  · simp [build_filter_chain, dictGet_single, filterTerms_clamp, hB, hT, hV]
  · by_cases hb : 0 < B <;> by_cases ht : 0 < T <;> by_cases hv : 0 < V <;>
      simp [filterTerms, hb, ht, hv]

/-- C4 counterexample: the three elapsed-time computations do not share a
single clamping epsilon. For a track of duration 100 started at monotonic
time 10 with zero seek offset, read at monotonic time 210, the embed
clamps to 100 (epsilon 0), the effect commands clamp to 99 (epsilon 1), and
the debug command does not clamp at all (200, beyond the duration), so the
claimed single consistent epsilon does not exist. -/
theorem elapsed_clamp_inconsistent :
    embed_elapsed 210 ⟨"u", "T", 100, 10, 0⟩ = 100
    ∧ command_elapsed 210 ⟨"u", "T", 100, 10, 0⟩ = 99
    ∧ debug_elapsed 210 ⟨"u", "T", 100, 10, 0⟩ = 200
    ∧ command_elapsed 210 ⟨"u", "T", 100, 10, 0⟩ ≠
        embed_elapsed 210 ⟨"u", "T", 100, 10, 0⟩
    ∧ ((⟨"u", "T", 100, 10, 0⟩ : CurrentTrack).duration : ℚ) <
        debug_elapsed 210 ⟨"u", "T", 100, 10, 0⟩ := by
  norm_num [embed_elapsed, command_elapsed, debug_elapsed, min_def, max_def]

/-- C4 amended: every component derives elapsed time from the single formula
`(now_monotonic - started_at) + seek_offset` and none stores elapsed
directly, but the clamping differs per component: the Now Playing embed
clamps to `[0, duration]`, the effect commands clamp to
`[0, max(0, duration - 1)]` and only when the duration is known (nonzero),
and the debug command does not clamp at all. -/
theorem elapsed_formula_amended (now : ℚ) (tr : CurrentTrack)
    (h : tr.started_at ≠ 0) :
    debug_elapsed now tr = rawElapsed now tr
    ∧ embed_elapsed now tr = max 0 (min (rawElapsed now tr) (tr.duration : ℚ))
    ∧ command_elapsed now tr =
        (if tr.duration ≠ 0 then
          min (max 0 (rawElapsed now tr)) (max 0 ((tr.duration : ℚ) - 1))
        else rawElapsed now tr) := by
  refine ⟨?_, rfl, ?_⟩ <;> simp [debug_elapsed, command_elapsed, rawElapsed, h]

theorem elapsed_formula_amended_witness :
    (⟨"u", "T", 100, 10, 0⟩ : CurrentTrack).started_at ≠ 0
    ∧ (debug_elapsed 210 ⟨"u", "T", 100, 10, 0⟩
          = rawElapsed 210 ⟨"u", "T", 100, 10, 0⟩
       ∧ embed_elapsed 210 ⟨"u", "T", 100, 10, 0⟩
          = max 0 (min (rawElapsed 210 ⟨"u", "T", 100, 10, 0⟩)
              ((⟨"u", "T", 100, 10, 0⟩ : CurrentTrack).duration : ℚ))
       ∧ command_elapsed 210 ⟨"u", "T", 100, 10, 0⟩ =
          (if (⟨"u", "T", 100, 10, 0⟩ : CurrentTrack).duration ≠ 0 then
            min (max 0 (rawElapsed 210 ⟨"u", "T", 100, 10, 0⟩))
              (max 0 (((⟨"u", "T", 100, 10, 0⟩ : CurrentTrack).duration : ℚ) - 1))
          else rawElapsed 210 ⟨"u", "T", 100, 10, 0⟩)) :=
  ⟨by norm_num, elapsed_formula_amended 210 ⟨"u", "T", 100, 10, 0⟩ (by norm_num)⟩

/-- Whether an `Except` is an error. -/
def exceptIsError {ε α : Type} : Except ε α → Bool
  | .error _ => true
  | .ok _ => false

/-- C9: track resolution attempts the external lookup once and, if it
raises, retries exactly once after a fixed 1-second backoff; a failure is
surfaced iff both consecutive attempts fail (a successful first attempt
performs no backoff sleep and no retry); and a surfaced failure is caught by
the play command, reported to the user as an error outcome, and leaves the
guild state unchanged instead of crashing the coordinator. -/
theorem search_retry_correct (a1 a2 : Except Unit (List (Option RawEntry)))
    (s : GuildState) :
    (exceptIsError (search_youtube a1 a2).1 = true ↔
      exceptIsError a1 = true ∧ exceptIsError a2 = true)
    ∧ (search_youtube a1 a2).2 = (if exceptIsError a1 then [1] else [])
    ∧ (∀ i, search_youtube (.ok i) a2 = (.ok (parseEntries i), []))
    ∧ (∀ e, play_cmd_react (.error e) s = (.errorReported, s)) := by
  rcases a1 with e1 | i1 <;> rcases a2 with e2 | i2 <;>
    simp [search_youtube, exceptIsError, play_cmd_react]

/-- C10: when no status channel is recorded for the guild (including the
falsy channel id 0), or the recorded channel cannot be resolved, the status
sync returns without creating or editing any message, without raising, and
without modifying the guild's UI bookkeeping or the message world. -/
theorem sync_noop_without_channel (u : UIState) (w : World)
    (h : u.channel = none ∨
      ∃ c, u.channel = some c ∧ (c = 0 ∨ c ∉ w.channels)) :
    send_or_edit_now_playing u w = ⟨u, w, []⟩ := by
  rcases h with h | ⟨c, hc, h0 | hmem⟩
  · simp [send_or_edit_now_playing, h]
  · simp [send_or_edit_now_playing, hc, h0]
  · by_cases hc0 : c = 0 <;> simp [send_or_edit_now_playing, hc, hc0, hmem]

theorem sync_noop_without_channel_witness :
    ((⟨none, some 7⟩ : UIState).channel = none ∨
      ∃ c, (⟨none, some 7⟩ : UIState).channel = some c ∧
        (c = 0 ∨ c ∉ (⟨[1], [7], 9, true⟩ : World).channels))
    ∧ send_or_edit_now_playing ⟨none, some 7⟩ ⟨[1], [7], 9, true⟩
        = ⟨⟨none, some 7⟩, ⟨[1], [7], 9, true⟩, []⟩ :=
  ⟨Or.inl rfl, sync_noop_without_channel _ _ (Or.inl rfl)⟩

/-- C5: the status sync is an idempotent upsert. Two consecutive syncs with
no external change in between perform at most one message create in total;
a sync performs an edit of the recorded message exactly when the channel is
resolvable and the recorded live message still exists; and a sync performs a
create (recording the new message as the live one) exactly when the channel
is resolvable, there is no valid recorded live message (a stale reference
is forgotten rather than raising), and the send succeeds. The recorded live
message is a single optional reference, so there is never more than one
live status message per guild. -/
theorem sync_idempotent_upsert (u : UIState) (w : World) :
    (createCount (send_or_edit_now_playing u w).actions +
      createCount (send_or_edit_now_playing
        (send_or_edit_now_playing u w).ui
        (send_or_edit_now_playing u w).world).actions ≤ 1)
    ∧ ((∃ m, (send_or_edit_now_playing u w).actions = [.edit m]
          ∧ u.liveMsg = some m
          ∧ (send_or_edit_now_playing u w).ui = u
          ∧ (send_or_edit_now_playing u w).world = w) ↔
        channelResolvable u w ∧ validLive u w)
    ∧ ((∃ n, (send_or_edit_now_playing u w).actions = [.create n]
          ∧ (send_or_edit_now_playing u w).ui.liveMsg = some n
          ∧ n ∈ (send_or_edit_now_playing u w).world.messages) ↔
        channelResolvable u w ∧ ¬ validLive u w ∧ w.createOk = true) := by
  obtain ⟨ch, lm⟩ := u
  rcases ch with _ | c
  · simp [send_or_edit_now_playing, createCount, channelResolvable, validLive]
  · by_cases hc0 : c = 0
    · simp [send_or_edit_now_playing, createCount, channelResolvable,
        validLive, hc0]
    · by_cases hcm : c ∈ w.channels
      · rcases lm with _ | m
        · by_cases hok : w.createOk <;>
            simp [send_or_edit_now_playing, createCount, channelResolvable,
              validLive, hc0, hcm, hok]
        · by_cases hm : m ∈ w.messages
          · simp [send_or_edit_now_playing, createCount, channelResolvable,
              validLive, hc0, hcm, hm]
          · by_cases hok : w.createOk <;>
              simp [send_or_edit_now_playing, createCount, channelResolvable,
                validLive, hc0, hcm, hm, hok]
      · simp [send_or_edit_now_playing, createCount, channelResolvable,
          validLive, hc0, hcm]

/-- C7 (code bug): the fallback of a failing restart never runs. The
`except` handler of `restart_same_track` executes on the event loop and
synchronously blocks that loop's thread on the result of the `play_next`
coroutine it has just scheduled onto the same loop
(`asyncio.run_coroutine_threadsafe(...).result()`, bot.py lines 247-248),
so the loop configuration it produces is stuck: no step is possible and
`play_next` never completes, freezing the coordinator instead of advancing
to the next queue entry. By contrast the same pattern in `after_play`
(bot.py lines 174-181) runs on the voice-player thread, where the loop is
free and the scheduled `play_next` does run. -/
theorem restart_fallback_deadlocks :
    (¬ ∃ s, LoopStep restartFallbackLoop s)
    ∧ LoopStep afterPlayLoop ⟨none, [], [.playNextTask]⟩
    ∧ LTask.playNextTask ∉ restartFallbackLoop.completed := by
  refine ⟨?_, ?_, ?_⟩
  · rintro ⟨s, h⟩
    rw [show restartFallbackLoop
        = ⟨some .playNextTask, [.playNextTask], []⟩ from rfl] at h
    cases h with
    | unblock t p c hmem => exact List.not_mem_nil _ hmem
  · exact LoopStep.runTask .playNextTask [] []
  · simp [restartFallbackLoop]

/-- Endpoint resolution that always succeeds with the given audio URL. -/
def okResolve (a : String) : String → Except Unit String := fun _ => .ok a

/-- C1 (code bug): the pending-restart check is skipped for the stream-end
of a track that was itself started by a restart. In a guild whose current
track T1 is a restarted stream, with `pending_restart = {elapsed: 50}` set
(a second effect change during the restarted playback) and T2 queued, the
restart-origin stream-end handler advances to T2 and leaves
`pending_restart` set, instead of consuming it and restarting T1; the stale
value is later consumed at T2's stream-end. This contradicts the spec's
universal dispatch and the commands' own descriptions ("reapplies to the
current song without skipping"). -/
theorem restarted_stream_end_skips :
    stream_end .restarted 100 (okResolve "a2")
        { queue := [⟨"u2", "T2", 120⟩], playerVol := some 1,
          current := some ⟨"u1", "T1", 200, 10, 30⟩, pending := some 50,
          bass := 3, treble := 0, vocal := 0,
          connected := true, vcState := .playing }
      = .ok { queue := [], playerVol := some 1,
              current := some ⟨"u2", "T2", 120, 100, 0⟩, pending := some 50,
              bass := 3, treble := 0, vocal := 0,
              connected := true, vcState := .playing }
          [.uiUpdate, .playAttempt, .streamStarted "a2"] := by
  rfl

/-- C6 (code bug): a stop issued while a restart is awaiting endpoint
re-resolution is not honoured by the restart's continuation. The code never
re-checks guild authority after the suspension point: it repopulates
`CURRENT_PLAYERS` with a fresh player (volume reset to the default, the
stopped guild's player being gone) and still reaches the
`voice_client.play` call; because the voice client was disconnected by the
stop, `play` raises, and the escape lands in the `except` handler whose
fallback deadlocks the event loop (see `restartFallbackLoop`). The guild
is left with a dangling player entry rather than remaining idle. -/
theorem stop_mid_restart_resurrects_player :
    restart_body 100 (okResolve "a1") stop_cmd
        { queue := [⟨"u2", "T2", 120⟩], playerVol := some (4/5),
          current := some ⟨"u1", "T1", 200, 10, 0⟩, pending := some 50,
          bass := 3, treble := 0, vocal := 0,
          connected := true, vcState := .playing }
      = .raised { queue := [], playerVol := some 1, current := none,
                  pending := none, bass := 3, treble := 0, vocal := 0,
                  connected := false, vcState := .stopped }
          [.uiUpdate, .playAttempt] := by
  rfl

/-- The elapsed value the spec says an effect change must record:
`(now_monotonic - started_at) + seek_offset`, clamped into
`[0, duration - 1]` when the duration is known. -/
def recordedElapsed (now : ℚ) (tr : CurrentTrack) : ℚ :=
  if tr.duration ≠ 0 then
    min (max 0 ((now - tr.started_at) + tr.seek_offset))
      (max 0 ((tr.duration : ℚ) - 1))
  else (now - tr.started_at) + tr.seek_offset

theorem setLevel_fields (e : Effect) (l : Nat) (s : GuildState) :
    (setLevel e l s).current = s.current ∧ (setLevel e l s).queue = s.queue
    ∧ (setLevel e l s).pending = s.pending
    ∧ (setLevel e l s).connected = s.connected
    ∧ (setLevel e l s).vcState = s.vcState
    ∧ (setLevel e l s).playerVol = s.playerVol := by
  cases e <;> simp [setLevel]

theorem effect_change_play (e : Effect) (now : ℚ) (level : Nat)
    (s : GuildState) (tr : CurrentTrack)
    (hlev : level ≤ 5) (hcur : s.current = some tr)
    (hconn : s.connected = true)
    (hvc : s.vcState = .playing ∨ s.vcState = .paused) :
    effect_change e now level s =
      ({ setLevel e level s with
         pending := some (command_elapsed now tr),
         vcState := .stopped }, [.uiUpdate]) := by
  rcases hvc with hvc | hvc <;> cases e <;>
    simp [effect_change, setLevel, hlev, hcur, hconn, hvc]

theorem restart_body_ok (now2 : ℚ) (resolve : String → Except Unit String)
    (s : GuildState) (tr : CurrentTrack) (p : ℚ) (audio : String)
    (hpend : s.pending = some p) (hcur : s.current = some tr)
    (hres : resolve tr.url = .ok audio) (hp : 0 ≤ p)
    (hconn : s.connected = true) :
    restart_body now2 resolve id s =
      .ok { s with pending := none,
                   playerVol := some (s.playerVol.getD 1),
                   current := some ⟨tr.url, tr.title, tr.duration, now2, p⟩,
                   vcState := .playing }
        [.uiUpdate, .playAttempt, .streamStarted audio] := by
  have hmax : max 0 p = p := max_eq_right hp
  simp [restart_body, hpend, hcur, hres, hmax, hconn]

/-- C2: an effect-level change while a track is playing or paused records
`pending_restart.elapsed = (now - started_at) + seek_offset`, clamped when
the duration is known; the subsequent restart completes with the same track,
`seek_offset` equal to that recorded elapsed value, `started_at` reset to
the restart time, the previous volume preserved, and the queue untouched;
and the restart path is the only modelled operation that ever makes
`seek_offset` nonzero (`play_next` only produces seek offset 0 or leaves the
current record alone, and effect changes, stop and volume changes never
touch it). -/
theorem effect_change_restart_correct (e : Effect) (s : GuildState)
    (now now2 : ℚ) (level : Nat) (tr : CurrentTrack) (audio : String)
    (resolve : String → Except Unit String)
    (hcur : s.current = some tr)
    (hlev : level ≤ 5)
    (hconn : s.connected = true)
    (hvc : s.vcState = .playing ∨ s.vcState = .paused)
    (hstart : 0 < tr.started_at)
    (hnow : tr.started_at ≤ now)
    (hseek : 0 ≤ tr.seek_offset)
    (hres : resolve tr.url = .ok audio) :
    (effect_change e now level s).1.pending = some (recordedElapsed now tr)
    ∧ (effect_change e now level s).1.queue = s.queue
    ∧ restart_body now2 resolve id (effect_change e now level s).1 =
        .ok { setLevel e level s with
              pending := none,
              playerVol := some (s.playerVol.getD 1),
              current := some ⟨tr.url, tr.title, tr.duration, now2,
                recordedElapsed now tr⟩,
              vcState := .playing }
          [.uiUpdate, .playAttempt, .streamStarted audio]
    ∧ (restart_body now2 resolve id (effect_change e now level s).1).state.queue
        = s.queue
    ∧ (∀ s2 n2 r2, (play_next n2 r2 s2).state.current = s2.current
        ∨ (play_next n2 r2 s2).state.current = none
        ∨ ∃ c, (play_next n2 r2 s2).state.current = some c
            ∧ c.seek_offset = 0)
    ∧ (∀ s2 n2 l2 e2, (effect_change e2 n2 l2 s2).1.current = s2.current)
    ∧ (∀ s2, (stop_cmd s2).current = none)
    ∧ (∀ s2 l2, (volume_cmd l2 s2).current = s2.current) := by
  obtain ⟨hc, hq, hp, hcn, hvs, hpv⟩ := setLevel_fields e level s
  have hne : tr.started_at ≠ 0 := ne_of_gt hstart
  have hcmd : command_elapsed now tr = recordedElapsed now tr := by
    simp [command_elapsed, recordedElapsed, hne]
  have h1 : effect_change e now level s =
      ({ setLevel e level s with
         pending := some (recordedElapsed now tr),
         vcState := .stopped }, [.uiUpdate]) := by
    rw [effect_change_play e now level s tr hlev hcur hconn hvc, hcmd]
  have hrec_nonneg : 0 ≤ recordedElapsed now tr := by
    rw [recordedElapsed]
    split
    · exact le_min (le_max_left _ _) (le_max_left _ _)
    · linarith
  have h3 : restart_body now2 resolve id (effect_change e now level s).1 =
      .ok { setLevel e level s with
            pending := none,
            playerVol := some (s.playerVol.getD 1),
            current := some ⟨tr.url, tr.title, tr.duration, now2,
              recordedElapsed now tr⟩,
            vcState := .playing }
        [.uiUpdate, .playAttempt, .streamStarted audio] := by
    rw [h1]
    rw [restart_body_ok now2 resolve
      { setLevel e level s with
        pending := some (recordedElapsed now tr), vcState := .stopped }
      tr (recordedElapsed now tr) audio rfl (hc.trans hcur) hres
      hrec_nonneg (hcn.trans hconn)]
    simp [hpv]
  refine ⟨by rw [h1], by rw [h1]; exact hq, h3, by rw [h3]; exact hq,
    ?_, ?_, ?_, ?_⟩
  · intro s2 n2 r2
    rcases hq2 : s2.queue with _ | ⟨t2, rest2⟩
    · right; left; simp [play_next, hq2, RunResult.state]
    · rcases hr : r2 t2.url with e2 | a2
      · left; simp [play_next, hq2, hr, RunResult.state]
      · right; right
        refine ⟨⟨t2.url, t2.title, t2.duration, n2, 0⟩, ?_, rfl⟩
        by_cases hcn2 : s2.connected <;>
          simp [play_next, hq2, hr, hcn2, RunResult.state]
  · intro s2 n2 l2 e2
    by_cases hl : l2 ≤ 5
    · rcases h2 : s2.current with _ | tr2 <;> rcases hvc2 : s2.vcState <;>
        by_cases hc2 : s2.connected <;> cases e2 <;>
        simp [effect_change, setLevel, hl, h2, hvc2, hc2]
    · cases e2 <;> simp [effect_change, hl]
  · intro s2; rfl
  · intro s2 l2
    rcases hpv2 : s2.playerVol with _ | v2 <;>
      by_cases hl : l2 ≤ 100 <;> simp [volume_cmd, hpv2, hl]

/-- Concrete current track used to instantiate `effect_change_restart_correct`. -/
def c2TR : CurrentTrack := ⟨"u1", "T1", 200, 10, 0⟩

/-- Concrete guild state used to instantiate `effect_change_restart_correct`. -/
def c2S : GuildState :=
  { queue := [⟨"u2", "T2", 120⟩], playerVol := some (1/2),
    current := some c2TR, pending := none,
    bass := 0, treble := 0, vocal := 0,
    connected := true, vcState := .playing }

theorem effect_change_restart_correct_witness :
    c2S.current = some c2TR ∧ (3 : Nat) ≤ 5 ∧ c2S.connected = true
    ∧ (c2S.vcState = .playing ∨ c2S.vcState = .paused)
    ∧ 0 < c2TR.started_at ∧ c2TR.started_at ≤ 60 ∧ 0 ≤ c2TR.seek_offset
    ∧ okResolve "a1" c2TR.url = .ok "a1"
    ∧ (effect_change .bass 60 3 c2S).1.pending
        = some (recordedElapsed 60 c2TR) :=
  ⟨rfl, by norm_num, rfl, Or.inl rfl, by norm_num [c2TR], by norm_num [c2TR],
   by norm_num [c2TR], rfl,
   (effect_change_restart_correct .bass c2S 60 61 3 c2TR "a1" (okResolve "a1")
     rfl (by norm_num) rfl (Or.inl rfl) (by norm_num [c2TR])
     (by norm_num [c2TR]) (by norm_num [c2TR]) rfl).1⟩

/-- C8: playback volume persists across track transitions within a guild
with default 1.0: when a new track starts (`play_next`) or the current track
is restarted (`restart_same_track`), the new player's volume equals the
previous player's volume when a previous player exists, and 1.0 otherwise
(`Option.getD 1`); the started state's volume stays within `[0, 1]` whenever
the previous volume was; and the volume command only replaces the volume by
`level / 100 ∈ [0, 1]` for `level ≤ 100` when a player exists, never
resetting a retained player's volume otherwise. -/
theorem volume_preserved (s : GuildState) (now now2 : ℚ)
    (resolve : String → Except Unit String) (t : Track) (rest : List Track)
    (audio audio2 : String) (p : ℚ) (tr : CurrentTrack)
    (hq : s.queue = t :: rest)
    (hres : resolve t.url = .ok audio)
    (hpend : s.pending = some p)
    (hcur : s.current = some tr)
    (hres2 : resolve tr.url = .ok audio2)
    (hrange : 0 ≤ s.playerVol.getD 1 ∧ s.playerVol.getD 1 ≤ 1) :
    (play_next now resolve s).state.playerVol = some (s.playerVol.getD 1)
    ∧ (restart_body now2 resolve id s).state.playerVol
        = some (s.playerVol.getD 1)
    ∧ (0 ≤ (play_next now resolve s).state.playerVol.getD 1
        ∧ (play_next now resolve s).state.playerVol.getD 1 ≤ 1)
    ∧ (∀ lvl, volume_cmd lvl s =
        (if lvl ≤ 100 ∧ s.playerVol.isSome = true
         then { s with playerVol := some ((lvl : ℚ) / 100) } else s))
    ∧ (∀ lvl, 0 ≤ (volume_cmd lvl s).playerVol.getD 1
        ∧ (volume_cmd lvl s).playerVol.getD 1 ≤ 1) := by
  have hplay : (play_next now resolve s).state.playerVol
      = some (s.playerVol.getD 1) := by
    simp only [play_next, hq, hres]
    split <;> simp [RunResult.state]
  have hrestart : (restart_body now2 resolve id s).state.playerVol
      = some (s.playerVol.getD 1) := by
    simp only [restart_body, hpend, hcur, hres2, id_eq]
    split <;> simp [RunResult.state]
  have hvol : ∀ lvl, volume_cmd lvl s =
      (if lvl ≤ 100 ∧ s.playerVol.isSome = true
       then { s with playerVol := some ((lvl : ℚ) / 100) } else s) := by
    intro lvl
    rcases hpv : s.playerVol with _ | v <;> by_cases hl : lvl ≤ 100 <;>
      simp [volume_cmd, hpv, hl]
  have hvrange : ∀ lvl, 0 ≤ (volume_cmd lvl s).playerVol.getD 1
      ∧ (volume_cmd lvl s).playerVol.getD 1 ≤ 1 := by
    intro lvl
    rw [hvol lvl]
    by_cases hcond : lvl ≤ 100 ∧ s.playerVol.isSome = true
    · rw [if_pos hcond]
      have hle : ((lvl : ℚ) / 100) ≤ 1 := by
        rw [div_le_one (by norm_num)]
        exact_mod_cast hcond.1
      constructor
      · simp only [Option.getD_some]
        positivity
      · simpa using hle
    · rw [if_neg hcond]; exact hrange
  refine ⟨hplay, hrestart, ?_, hvol, hvrange⟩
  rw [hplay]
  simpa using hrange

/-- Concrete guild state used to instantiate `volume_preserved`. -/
def c8S : GuildState :=
  { queue := [⟨"u1", "T1", 100⟩], playerVol := some (3/10),
    current := some ⟨"u1", "T1", 100, 5, 0⟩, pending := some 42,
    bass := 0, treble := 0, vocal := 0,
    connected := true, vcState := .playing }

theorem volume_preserved_witness :
    c8S.queue = [⟨"u1", "T1", 100⟩]
    ∧ okResolve "a" "u1" = .ok "a"
    ∧ c8S.pending = some 42
    ∧ c8S.current = some ⟨"u1", "T1", 100, 5, 0⟩
    ∧ (0 ≤ c8S.playerVol.getD 1 ∧ c8S.playerVol.getD 1 ≤ 1)
    ∧ (play_next 7 (okResolve "a") c8S).state.playerVol
        = some (c8S.playerVol.getD 1) :=
  ⟨rfl, rfl, rfl, rfl, by constructor <;> norm_num [c8S],
   (volume_preserved c8S 7 8 (okResolve "a") ⟨"u1", "T1", 100⟩ [] "a" "a"
     42 ⟨"u1", "T1", 100, 5, 0⟩ rfl rfl rfl rfl rfl
     (by constructor <;> norm_num [c8S])).1⟩

end MusicBot
